import Mathlib

/-!
# Verification of the frustum-proposal geometry of `src/models/frustum_proposal.py`

A shallow embedding of the `FrustumProposal` class.  Point coordinates are
modelled as exact rationals; an n×k numpy array becomes a Lean list of rows,
and the row-wise numpy operations become `List.map` / boolean-mask filtering.

The perspective divide at zero depth produces non-finite values (`inf`/`nan`)
in the source; every interval comparison against such a value is false
(`inf < xmax`, `-inf >= xmin` and every comparison on `nan` are all `False`
in IEEE semantics, and each pixel-bound test below conjoins an upper and a
lower bound, one of which fails for `±inf`).  We model a zero-depth
projection as `none`, and box-membership of `none` as `false`, which gives
the same observable filtering behaviour as the floating-point code.
-/

/-- A 3D point: one row of an n×3 numpy array. -/
@[ext]
structure Vec3 where
  x : ℚ
  y : ℚ
  z : ℚ
deriving DecidableEq

/-- A lidar point: one row of the n×4 point cloud — 3 spatial coordinates in the
sensor (velodyne) frame plus the auxiliary reflectance scalar. -/
@[ext]
structure Vec4 where
  x : ℚ
  y : ℚ
  z : ℚ
  w : ℚ
deriving DecidableEq

/-- The spatial part `row[0:3]` of a point-cloud row. -/
def Vec4.spatial (p : Vec4) : Vec3 := ⟨p.x, p.y, p.z⟩

/-- A 3×4 matrix, row-major (`np.reshape(buf, [3, 4])`). -/
structure Mat34 where
  m00 : ℚ
  m01 : ℚ
  m02 : ℚ
  m03 : ℚ
  m10 : ℚ
  m11 : ℚ
  m12 : ℚ
  m13 : ℚ
  m20 : ℚ
  m21 : ℚ
  m22 : ℚ
  m23 : ℚ
deriving DecidableEq

/-- A 3×3 matrix, row-major (`np.reshape(buf, [3, 3])`). -/
structure Mat33 where
  a00 : ℚ
  a01 : ℚ
  a02 : ℚ
  a10 : ℚ
  a11 : ℚ
  a12 : ℚ
  a20 : ℚ
  a21 : ℚ
  a22 : ℚ
deriving DecidableEq

/-- Embedding of `inverse_rigid_trans`: the inverse of a rigid 3×4 transform [R|t],
namely [Rᵀ | −Rᵀt] (`inv_Tr[0:3,0:3] = Tr[0:3,0:3].T`;
`inv_Tr[0:3,3] = -Tr[0:3,0:3].T @ Tr[0:3,3]`). -/
def inverse_rigid_trans (Tr : Mat34) : Mat34 where
  m00 := Tr.m00
  m01 := Tr.m10
  m02 := Tr.m20
  m03 := -(Tr.m00 * Tr.m03 + Tr.m10 * Tr.m13 + Tr.m20 * Tr.m23)
  m10 := Tr.m01
  m11 := Tr.m11
  m12 := Tr.m21
  m13 := -(Tr.m01 * Tr.m03 + Tr.m11 * Tr.m13 + Tr.m21 * Tr.m23)
  m20 := Tr.m02
  m21 := Tr.m12
  m22 := Tr.m22
  m23 := -(Tr.m02 * Tr.m03 + Tr.m12 * Tr.m13 + Tr.m22 * Tr.m23)

/-- One row of `np.dot(cart2hom(pts), M.T)`: homogenize the point (append 1)
and apply the 3×4 matrix, i.e. `M ⬝ (x, y, z, 1)`. -/
def applyTr (M : Mat34) (p : Vec3) : Vec3 where
  x := M.m00 * p.x + M.m01 * p.y + M.m02 * p.z + M.m03
  y := M.m10 * p.x + M.m11 * p.y + M.m12 * p.z + M.m13
  z := M.m20 * p.x + M.m21 * p.y + M.m22 * p.z + M.m23

/-- One column of `np.dot(M, pts.T)`: apply a 3×3 matrix to a 3D point. -/
def mulVec33 (M : Mat33) (p : Vec3) : Vec3 where
  x := M.a00 * p.x + M.a01 * p.y + M.a02 * p.z
  y := M.a10 * p.x + M.a11 * p.y + M.a12 * p.z
  z := M.a20 * p.x + M.a21 * p.y + M.a22 * p.z

/-- Determinant of a 3×3 matrix. -/
def det3 (M : Mat33) : ℚ :=
  M.a00 * (M.a11 * M.a22 - M.a12 * M.a21)
    - M.a01 * (M.a10 * M.a22 - M.a12 * M.a20)
    + M.a02 * (M.a10 * M.a21 - M.a11 * M.a20)

/-- Embedding of `np.linalg.inv` on a 3×3 matrix: the exact inverse, written via the
adjugate over the determinant (the value `np.linalg.inv` computes, exactly,
whenever the matrix is invertible). -/
def inv3 (M : Mat33) : Mat33 where
  a00 := (M.a11 * M.a22 - M.a12 * M.a21) / det3 M
  a01 := (M.a02 * M.a21 - M.a01 * M.a22) / det3 M
  a02 := (M.a01 * M.a12 - M.a02 * M.a11) / det3 M
  a10 := (M.a12 * M.a20 - M.a10 * M.a22) / det3 M
  a11 := (M.a00 * M.a22 - M.a02 * M.a20) / det3 M
  a12 := (M.a02 * M.a10 - M.a00 * M.a12) / det3 M
  a20 := (M.a10 * M.a21 - M.a11 * M.a20) / det3 M
  a21 := (M.a01 * M.a20 - M.a00 * M.a21) / det3 M
  a22 := (M.a00 * M.a11 - M.a01 * M.a10) / det3 M

/-- The transform-engine state: the three calibration matrices plus the
rigid inverse `C2V` computed once at construction. -/
structure FrustumProposal where
  P : Mat34
  V2C : Mat34
  C2V : Mat34
  R0 : Mat33
deriving DecidableEq

/-- The calibration mapping handed to the constructor: each of the three
expected keys is present (with a flat row-major buffer) or absent. -/
structure Calibs where
  pBuf : Option (List ℚ)
  trVeloToCamBuf : Option (List ℚ)
  r0rectBuf : Option (List ℚ)

/-- The error raised during construction: the failing `assert`, a missing
mapping key (Python `KeyError`), or a buffer whose element count does not
match the requested shape (`np.reshape` raising `ValueError`). -/
inductive CalibError where
  | assertionFailed : CalibError
  | keyNotFound : CalibError
  | cannotReshape : CalibError
deriving DecidableEq

/-- Python truthiness of a string: nonempty strings are truthy. -/
def pyTruthy (s : String) : Bool := !s.isEmpty

/-- The constructor's assert expression
`'P' and 'Tr_velo_to_cam' and 'R0_rect' in calibs`.  Python `in` binds
tighter than `and`, and `a and b` has the truth value of `b` whenever `a`
is truthy; the two string literals are nonempty, hence truthy, so at the
level of truth values the expression is the conjunction of the truthiness
of the two literals with the one real membership test, `'R0_rect' in calibs`. -/
def initAssertExpr (calibs : Calibs) : Bool :=
  pyTruthy "P" && (pyTruthy "Tr_velo_to_cam" && calibs.r0rectBuf.isSome)

/-- Embedding of `np.reshape(buf, [3, 4])`: succeeds exactly when the buffer holds 12
values, laid out row-major. -/
def reshape34 (buf : List ℚ) : Option Mat34 :=
  if buf.length = 12 then
    some ⟨buf[0]!, buf[1]!, buf[2]!, buf[3]!, buf[4]!, buf[5]!,
          buf[6]!, buf[7]!, buf[8]!, buf[9]!, buf[10]!, buf[11]!⟩
  else none

/-- Embedding of `np.reshape(buf, [3, 3])`: succeeds exactly when the buffer holds 9
values, laid out row-major. -/
def reshape33 (buf : List ℚ) : Option Mat33 :=
  if buf.length = 9 then
    some ⟨buf[0]!, buf[1]!, buf[2]!, buf[3]!, buf[4]!, buf[5]!,
          buf[6]!, buf[7]!, buf[8]!⟩
  else none

/-- Embedding of `FrustumProposal.__init__`: assert, then for each key in source order
look it up and reshape it; `C2V` is computed from `V2C` by
`inverse_rigid_trans`.  Any failure aborts construction with the
corresponding error and no engine value is produced. -/
def FrustumProposal.init (calibs : Calibs) : Except CalibError FrustumProposal :=
  if !initAssertExpr calibs then .error .assertionFailed else
  match calibs.pBuf with
  | none => .error .keyNotFound
  | some pB =>
    match reshape34 pB with
    | none => .error .cannotReshape
    | some P =>
      match calibs.trVeloToCamBuf with
      | none => .error .keyNotFound
      | some trB =>
        match reshape34 trB with
        | none => .error .cannotReshape
        | some V2C =>
          match calibs.r0rectBuf with
          | none => .error .keyNotFound
          | some rB =>
            match reshape33 rB with
            | none => .error .cannotReshape
            | some R0 => .ok ⟨P, V2C, inverse_rigid_trans V2C, R0⟩

/-- Row of `_project_velo_to_ref`: homogenize and right-multiply by V2Cᵀ. -/
def veloToRefPt (fp : FrustumProposal) (p : Vec3) : Vec3 := applyTr fp.V2C p

/-- Row of `_project_ref_to_velo`: homogenize and right-multiply by C2Vᵀ. -/
def refToVeloPt (fp : FrustumProposal) (p : Vec3) : Vec3 := applyTr fp.C2V p

/-- Row of `_project_rect_to_ref`: left-multiply by `inv(R0)`. -/
def rectToRefPt (fp : FrustumProposal) (p : Vec3) : Vec3 := mulVec33 (inv3 fp.R0) p

/-- Row of `_project_ref_to_rect`: left-multiply by `R0`. -/
def refToRectPt (fp : FrustumProposal) (p : Vec3) : Vec3 := mulVec33 fp.R0 p

/-- Row of `project_rect_to_velo`: rectified→reference then reference→sensor. -/
def rectToVeloPt (fp : FrustumProposal) (p : Vec3) : Vec3 :=
  refToVeloPt fp (rectToRefPt fp p)

/-- Row of `_project_velo_to_rect`: sensor→reference then reference→rectified. -/
def veloToRectPt (fp : FrustumProposal) (p : Vec3) : Vec3 :=
  refToRectPt fp (veloToRefPt fp p)

/-- Row of `_project_rect_to_image`: homogenize, right-multiply by Pᵀ,
then divide the first two coordinates by the third (the depth).  Zero depth
yields non-finite pixel coordinates in the source, modelled as `none`. -/
def rectToImagePt (fp : FrustumProposal) (p : Vec3) : Option (ℚ × ℚ) :=
  let q := applyTr fp.P p
  if q.z = 0 then none else some (q.x / q.z, q.y / q.z)

/-- Row of `_project_velo_to_image`. -/
def veloToImagePt (fp : FrustumProposal) (p : Vec3) : Option (ℚ × ℚ) :=
  rectToImagePt fp (veloToRectPt fp p)

/-- Embedding of `_project_velo_to_ref` (array level). -/
def project_velo_to_ref (fp : FrustumProposal) (pts : List Vec3) : List Vec3 :=
  pts.map (veloToRefPt fp)

/-- Embedding of `_project_ref_to_velo` (array level). -/
def project_ref_to_velo (fp : FrustumProposal) (pts : List Vec3) : List Vec3 :=
  pts.map (refToVeloPt fp)

/-- Embedding of `_project_rect_to_ref` (array level). -/
def project_rect_to_ref (fp : FrustumProposal) (pts : List Vec3) : List Vec3 :=
  pts.map (rectToRefPt fp)

/-- Embedding of `_project_ref_to_rect` (array level). -/
def project_ref_to_rect (fp : FrustumProposal) (pts : List Vec3) : List Vec3 :=
  pts.map (refToRectPt fp)

/-- Embedding of `project_rect_to_velo` (array level). -/
def project_rect_to_velo (fp : FrustumProposal) (pts : List Vec3) : List Vec3 :=
  project_ref_to_velo fp (project_rect_to_ref fp pts)

/-- Embedding of `_project_velo_to_rect` (array level). -/
def project_velo_to_rect (fp : FrustumProposal) (pts : List Vec3) : List Vec3 :=
  project_ref_to_rect fp (project_velo_to_ref fp pts)

/-- Embedding of `_project_velo_to_image` (array level). -/
def project_velo_to_image (fp : FrustumProposal) (pts : List Vec3) : List (Option (ℚ × ℚ)) :=
  pts.map (veloToImagePt fp)

/-- The pixel-box membership test shared by `_get_lidar_in_image_fov` and the
per-box loop of `get_frustum_proposal`:
`(x < xmax) & (x >= xmin) & (y < ymax) & (y >= ymin)`.
A non-finite projection (zero depth, modelled `none`) fails the test, as it
does under IEEE comparison semantics. -/
def inBox (xmin ymin xmax ymax : ℚ) : Option (ℚ × ℚ) → Bool
  | none => false
  | some q =>
      decide (q.1 < xmax) && decide (q.1 ≥ xmin) &&
      decide (q.2 < ymax) && decide (q.2 ≥ ymin)

/-- The keep-condition of `_get_lidar_in_image_fov` for one point: projected
pixel inside the half-open box, and sensor-frame forward distance strictly
above the clip distance (`fov_inds & (pc_velo[:,0] > clip_distance)`). -/
def fovCond (fp : FrustumProposal) (xmin ymin xmax ymax clip_distance : ℚ)
    (p : Vec3) : Bool :=
  inBox xmin ymin xmax ymax (veloToImagePt fp p) && decide (p.x > clip_distance)

/-- Numpy boolean-mask row selection `arr[mask, :]`: keep the rows whose mask
entry is true, in their original order. -/
def maskFilter {α : Type} : List α → List Bool → List α
  | [], _ => []
  | _, [] => []
  | a :: as, b :: bs => if b then a :: maskFilter as bs else maskFilter as bs

/-- Embedding of `_get_lidar_in_image_fov` with `return_more=True` (the form used by the
frustum extractor; with `return_more=False` the source returns only the
first component): the filtered subset, the unfiltered per-point projections,
and the keep-mask in input order. -/
def get_lidar_in_image_fov (fp : FrustumProposal) (pc_velo : List Vec3)
    (xmin ymin xmax ymax clip_distance : ℚ) :
    List Vec3 × List (Option (ℚ × ℚ)) × List Bool :=
  let pts_2d := project_velo_to_image fp pc_velo
  let fov_inds := pc_velo.map (fovCond fp xmin ymin xmax ymax clip_distance)
  (maskFilter pc_velo fov_inds, pts_2d, fov_inds)

/-- A 2D box `(xmin, ymin, xmax, ymax)` in pixel coordinates. -/
def Box2D : Type := ℚ × ℚ × ℚ × ℚ

/-- One row of `pc_rect`: the spatial part sent sensor→rectified, the
auxiliary scalar copied through (`pc_rect[:,0:3] = _project_velo_to_rect(...)`;
`pc_rect[:,3] = pc_velo[:,3]`). -/
def veloRowToRect (fp : FrustumProposal) (p : Vec4) : Vec4 :=
  let r := veloToRectPt fp p.spatial
  ⟨r.x, r.y, r.z, p.w⟩

/-- One row of `pc_in_velo_fov`: the spatial part sent rectified→sensor, the
auxiliary scalar copied through (`pc_in_velo_fov[:,0:3] = project_rect_to_velo(...)`;
`pc_in_velo_fov[:,3] = pc_in_box_fov[:,3]`). -/
def rectRowToVelo (fp : FrustumProposal) (p : Vec4) : Vec4 :=
  let v := rectToVeloPt fp p.spatial
  ⟨v.x, v.y, v.z, p.w⟩

/-- The per-box keep-mask of the extractor loop: pixel-box membership of the
precomputed projections, conjoined elementwise with the whole-image mask
(`box_fov_inds = (...bounds...); box_fov_inds = box_fov_inds & img_fov_inds`). -/
def box_fov_inds (pc_image_coord : List (Option (ℚ × ℚ))) (img_fov_inds : List Bool)
    (box2d : Box2D) : List Bool :=
  List.zipWith
    (fun q b => inBox box2d.1 box2d.2.1 box2d.2.2.1 box2d.2.2.2 q && b)
    pc_image_coord img_fov_inds

/-- The whole-image FOV pass of `get_frustum_proposal`:
`_get_lidar_in_image_fov(pc_velo[:,0:3], 0, 0, img_width, img_height, True)`
with the default clip distance 2. -/
def wholeImageFov (fp : FrustumProposal) (img_shape : ℕ × ℕ × ℕ)
    (pc_velo : List Vec4) : List Vec3 × List (Option (ℚ × ℚ)) × List Bool :=
  get_lidar_in_image_fov fp (pc_velo.map Vec4.spatial)
    0 0 (img_shape.2.1 : ℚ) (img_shape.1 : ℚ) 2

/-- Embedding of `get_frustum_proposal(img_shape, boxes2d, pc_velo)`: one whole-image FOV
pass, one sensor→rectified precomputation, then per box (in input order) the
masked gather of rectified rows and its rectified→sensor image.  The source's
`print` calls are I/O only and are not modelled. -/
def get_frustum_proposal (fp : FrustumProposal) (img_shape : ℕ × ℕ × ℕ)
    (boxes2d : List Box2D) (pc_velo : List Vec4) :
    List (List Vec4) × List (List Vec4) :=
  let pc_image_coord := (wholeImageFov fp img_shape pc_velo).2.1
  let img_fov_inds := (wholeImageFov fp img_shape pc_velo).2.2
  let pc_rect := pc_velo.map (veloRowToRect fp)
  let frustum_proposals := boxes2d.map
    (fun box2d => maskFilter pc_rect (box_fov_inds pc_image_coord img_fov_inds box2d))
  let frustum_proposals_velo := frustum_proposals.map
    (fun pc_in_box_fov => pc_in_box_fov.map (rectRowToVelo fp))
  (frustum_proposals, frustum_proposals_velo)

/-! ## Generic list helpers -/

theorem map_id_of_eq {α : Type} {f : α → α} (h : ∀ a, f a = a) :
    ∀ l : List α, l.map f = l
  | [] => rfl
  | a :: l => by rw [List.map_cons, h, map_id_of_eq h l]

theorem getElem?_zipWith_some {α β γ : Type} {f : α → β → γ} {as : List α}
    {bs : List β} {i : ℕ} {a : α} {b : β}
    (ha : as[i]? = some a) (hb : bs[i]? = some b) :
    (List.zipWith f as bs)[i]? = some (f a b) := by
  induction as generalizing bs i with
  | nil => simp at ha
  | cons x xs ih =>
    cases bs with
    | nil => simp at hb
    | cons y ys =>
      cases i with
      | zero =>
        simp only [List.getElem?_cons_zero, Option.some.injEq] at ha hb
        simp [ha, hb]
      | succ n =>
        simp only [List.getElem?_cons_succ] at ha hb
        simpa using ih ha hb

theorem maskFilter_sublist {α : Type} :
    ∀ (l : List α) (bs : List Bool), List.Sublist (maskFilter l bs) l
  | [], bs => by cases bs <;> simp [maskFilter]
  | _ :: _, [] => by simp [maskFilter]
  | a :: as, b :: bs => by
    cases b with
    | false =>
      simp only [maskFilter, if_neg Bool.false_ne_true]
      exact List.Sublist.cons a (maskFilter_sublist as bs)
    | true =>
      simp only [maskFilter, if_pos rfl]
      exact List.Sublist.cons₂ a (maskFilter_sublist as bs)

theorem mem_maskFilter_map {α : Type} {f : α → Bool} {q : α} :
    ∀ {l : List α}, q ∈ maskFilter l (l.map f) → f q = true
  | [], h => by simp [maskFilter] at h
  | a :: as, h => by
    by_cases hfa : f a = true
    · rw [List.map_cons, maskFilter, if_pos hfa] at h
      rcases List.mem_cons.mp h with rfl | h
      · exact hfa
      · exact mem_maskFilter_map h
    · rw [List.map_cons, maskFilter, if_neg hfa] at h
      exact mem_maskFilter_map h

/-! ## Rigidity and the rigid / 3×3 inverses -/

/-- Rigidity of a 3×4 transform [R|t]: the rotation block has orthonormal
columns, i.e. RᵀR = 1. -/
def IsRigid (Tr : Mat34) : Prop :=
  Tr.m00 ^ 2 + Tr.m10 ^ 2 + Tr.m20 ^ 2 = 1 ∧
  Tr.m01 ^ 2 + Tr.m11 ^ 2 + Tr.m21 ^ 2 = 1 ∧
  Tr.m02 ^ 2 + Tr.m12 ^ 2 + Tr.m22 ^ 2 = 1 ∧
  Tr.m00 * Tr.m01 + Tr.m10 * Tr.m11 + Tr.m20 * Tr.m21 = 0 ∧
  Tr.m00 * Tr.m02 + Tr.m10 * Tr.m12 + Tr.m20 * Tr.m22 = 0 ∧
  Tr.m01 * Tr.m02 + Tr.m11 * Tr.m12 + Tr.m21 * Tr.m22 = 0

theorem applyTr_inverse_rigid {Tr : Mat34} (h : IsRigid Tr) (p : Vec3) :
    applyTr (inverse_rigid_trans Tr) (applyTr Tr p) = p := by
  obtain ⟨h1, h2, h3, h4, h5, h6⟩ := h
  cases p with
  | mk x y z =>
    simp only [applyTr, inverse_rigid_trans, Vec3.mk.injEq]
    refine ⟨?_, ?_, ?_⟩
    · linear_combination x * h1 + y * h4 + z * h5
    · linear_combination x * h4 + y * h2 + z * h6
    · linear_combination x * h5 + y * h6 + z * h3

theorem inv3_mulVec33_cancel {M : Mat33} (hd : det3 M ≠ 0) (p : Vec3) :
    mulVec33 (inv3 M) (mulVec33 M p) = p := by
  rw [det3] at hd
  cases p with
  | mk x y z =>
    simp only [mulVec33, inv3, det3, Vec3.mk.injEq]
    refine ⟨?_, ?_, ?_⟩ <;>
    · field_simp
      ring

/-! ## Concrete engine used by the witnesses -/

/-- A rigid test transform: rotation by 90° about the z axis, translation (1,2,3). -/
def v2cTest : Mat34 := ⟨0, -1, 0, 1, 1, 0, 0, 2, 0, 0, 1, 3⟩

/-- An invertible (non-orthonormal) test rectification matrix, det = 2. -/
def r0Test : Mat33 := ⟨2, 0, 0, 0, 1, 0, 0, 0, 1⟩

/-- An identity-like test projection matrix. -/
def pTest : Mat34 := ⟨1, 0, 0, 0, 0, 1, 0, 0, 0, 0, 1, 0⟩

/-- A concrete engine whose C2V is computed at construction as in the source. -/
def fpTest : FrustumProposal := ⟨pTest, v2cTest, inverse_rigid_trans v2cTest, r0Test⟩

/-! ## C1: sensor→reference / reference→sensor round trip -/

/-- C1: for every engine whose `C2V` was computed at construction from a rigid
`V2C`, applying sensor→reference (homogenize, right-multiply by V2Cᵀ) and then
reference→sensor (homogenize, right-multiply by C2Vᵀ, where C2V = [Rᵀ | −Rᵀt])
returns every point unchanged — exactly, in exact arithmetic. -/
theorem velo_ref_round_trip (fp : FrustumProposal)
    (hC2V : fp.C2V = inverse_rigid_trans fp.V2C) (hR : IsRigid fp.V2C)
    (pts : List Vec3) :
    project_ref_to_velo fp (project_velo_to_ref fp pts) = pts := by
  unfold project_ref_to_velo project_velo_to_ref
  rw [List.map_map]
  refine map_id_of_eq (fun p => ?_) pts
  show refToVeloPt fp (veloToRefPt fp p) = p
  unfold refToVeloPt veloToRefPt
  rw [hC2V]
  exact applyTr_inverse_rigid hR p

theorem velo_ref_round_trip_witness :
    (fpTest.C2V = inverse_rigid_trans fpTest.V2C ∧ IsRigid fpTest.V2C) ∧
    project_ref_to_velo fpTest (project_velo_to_ref fpTest [⟨5, -7, 11⟩]) =
      [⟨5, -7, 11⟩] :=
  ⟨⟨rfl, by norm_num [IsRigid, fpTest, v2cTest]⟩,
    velo_ref_round_trip fpTest rfl (by norm_num [IsRigid, fpTest, v2cTest])
      [⟨5, -7, 11⟩]⟩

/-! ## C6: sensor→rectified / rectified→sensor round trip -/

/-- C6: for every engine whose `C2V` was computed at construction from a rigid
`V2C` and whose `R0` is invertible, the full chain rectified→sensor applied
after sensor→rectified returns every point unchanged — exactly, in exact
arithmetic. -/
theorem full_chain_round_trip (fp : FrustumProposal)
    (hC2V : fp.C2V = inverse_rigid_trans fp.V2C) (hR : IsRigid fp.V2C)
    (hdet : det3 fp.R0 ≠ 0) (pts : List Vec3) :
    project_rect_to_velo fp (project_velo_to_rect fp pts) = pts := by
  unfold project_rect_to_velo project_velo_to_rect project_ref_to_velo
    project_rect_to_ref project_ref_to_rect project_velo_to_ref
  rw [List.map_map, List.map_map, List.map_map]
  refine map_id_of_eq (fun p => ?_) pts
  show refToVeloPt fp (rectToRefPt fp (refToRectPt fp (veloToRefPt fp p))) = p
  unfold refToVeloPt rectToRefPt refToRectPt veloToRefPt
  rw [inv3_mulVec33_cancel hdet, hC2V]
  exact applyTr_inverse_rigid hR p

theorem full_chain_round_trip_witness :
    (fpTest.C2V = inverse_rigid_trans fpTest.V2C ∧ IsRigid fpTest.V2C ∧
      det3 fpTest.R0 ≠ 0) ∧
    project_rect_to_velo fpTest (project_velo_to_rect fpTest [⟨5, -7, 11⟩]) =
      [⟨5, -7, 11⟩] :=
  ⟨⟨rfl, by norm_num [IsRigid, fpTest, v2cTest],
      by norm_num [det3, fpTest, r0Test]⟩,
    full_chain_round_trip fpTest rfl (by norm_num [IsRigid, fpTest, v2cTest])
      (by norm_num [det3, fpTest, r0Test]) [⟨5, -7, 11⟩]⟩

/-! ## C3 / C10: construction-time validation -/

theorem pyTruthy_P : pyTruthy "P" = true := rfl

theorem pyTruthy_Tr_velo_to_cam : pyTruthy "Tr_velo_to_cam" = true := rfl

/-- Well-formedness of the calibration mapping: each buffer is present and has
the expected element count (P: 12 values, Tr_velo_to_cam: 12, R0_rect: 9). -/
def calibsWellFormed (c : Calibs) : Prop :=
  c.pBuf.map List.length = some 12 ∧
  c.trVeloToCamBuf.map List.length = some 12 ∧
  c.r0rectBuf.map List.length = some 9

instance (c : Calibs) : Decidable (calibsWellFormed c) :=
  inferInstanceAs (Decidable (c.pBuf.map List.length = some 12 ∧
    c.trVeloToCamBuf.map List.length = some 12 ∧
    c.r0rectBuf.map List.length = some 9))

/-- C3: construction fails — atomically, producing no engine value — whenever
any of the three calibration buffers is missing or its element count does not
match the expected 12/12/9 shape. -/
theorem init_fails_on_bad_calibs (c : Calibs) (h : ¬ calibsWellFormed c) :
    (∃ e, FrustumProposal.init c = Except.error e) ∧
    ∀ fp, FrustumProposal.init c ≠ Except.ok fp := by
  have main : ∃ e, FrustumProposal.init c = Except.error e := by
    obtain ⟨pOpt, tOpt, rOpt⟩ := c
    cases rOpt with
    | none =>
      exact ⟨.assertionFailed, by simp [FrustumProposal.init, initAssertExpr]⟩
    | some rB =>
      cases pOpt with
      | none =>
        exact ⟨.keyNotFound, by
          simp [FrustumProposal.init, initAssertExpr, pyTruthy_P,
            pyTruthy_Tr_velo_to_cam]⟩
      | some pB =>
        by_cases hp : pB.length = 12
        · cases tOpt with
          | none =>
            exact ⟨.keyNotFound, by
              simp [FrustumProposal.init, initAssertExpr, pyTruthy_P,
                pyTruthy_Tr_velo_to_cam, reshape34, hp]⟩
          | some tB =>
            by_cases ht : tB.length = 12
            · by_cases hr : rB.length = 9
              · exact absurd ⟨by simp [hp], by simp [ht], by simp [hr]⟩ h
              · exact ⟨.cannotReshape, by
                  simp [FrustumProposal.init, initAssertExpr, pyTruthy_P,
                    pyTruthy_Tr_velo_to_cam, reshape34, reshape33, hp, ht, hr]⟩
            · exact ⟨.cannotReshape, by
                simp [FrustumProposal.init, initAssertExpr, pyTruthy_P,
                  pyTruthy_Tr_velo_to_cam, reshape34, hp, ht]⟩
        · exact ⟨.cannotReshape, by
            simp [FrustumProposal.init, initAssertExpr, pyTruthy_P,
              pyTruthy_Tr_velo_to_cam, reshape34, hp]⟩
  refine ⟨main, fun fp hfp => ?_⟩
  obtain ⟨e, he⟩ := main
  rw [hfp] at he
  exact Except.noConfusion he

/-- The claim's concrete instance: a calibration mapping whose P buffer holds
11 values (the other two buffers well-sized). -/
def calibsShortP : Calibs :=
  ⟨some (List.replicate 11 0), some (List.replicate 12 0),
    some (List.replicate 9 0)⟩

theorem init_fails_on_bad_calibs_witness :
    ¬ calibsWellFormed calibsShortP ∧
    ∃ e, FrustumProposal.init calibsShortP = Except.error e :=
  ⟨by decide, (init_fails_on_bad_calibs calibsShortP (by decide)).1⟩

/-- C10: the constructor's assert expression
`'P' and 'Tr_velo_to_cam' and 'R0_rect' in calibs` succeeds if and only if
the key `R0_rect` is present — it does not check presence of `P` or
`Tr_velo_to_cam` — so a mapping containing `R0_rect` but lacking `P` or
`Tr_velo_to_cam` passes the assertion and construction fails later, not via
the assertion; in particular with `P` absent it fails at the `calibs['P']`
key lookup. -/
theorem init_assert_checks_only_r0 (c : Calibs) :
    (initAssertExpr c = true ↔ c.r0rectBuf.isSome = true) ∧
    (c.r0rectBuf.isSome = true → c.pBuf = none ∨ c.trVeloToCamBuf = none →
      (∃ e, FrustumProposal.init c = Except.error e ∧
        e ≠ CalibError.assertionFailed) ∧
      (c.pBuf = none →
        FrustumProposal.init c = Except.error CalibError.keyNotFound)) := by
  obtain ⟨pOpt, tOpt, rOpt⟩ := c
  refine ⟨by simp [initAssertExpr, pyTruthy_P, pyTruthy_Tr_velo_to_cam], ?_⟩
  rintro hr (hmiss | hmiss)
  · dsimp only at hmiss hr
    subst hmiss
    obtain ⟨rB, hrB⟩ := Option.isSome_iff_exists.mp hr
    subst hrB
    refine ⟨⟨.keyNotFound, ?_, by simp⟩, fun _ => ?_⟩ <;>
      simp [FrustumProposal.init, initAssertExpr, pyTruthy_P,
        pyTruthy_Tr_velo_to_cam]
  · dsimp only at hmiss
    subst hmiss
    dsimp only at hr ⊢
    obtain ⟨rB, hrB⟩ := Option.isSome_iff_exists.mp hr
    subst hrB
    cases pOpt with
    | none =>
      exact ⟨⟨.keyNotFound,
        by simp [FrustumProposal.init, initAssertExpr, pyTruthy_P,
          pyTruthy_Tr_velo_to_cam], by simp⟩,
        fun _ => by simp [FrustumProposal.init, initAssertExpr, pyTruthy_P,
          pyTruthy_Tr_velo_to_cam]⟩
    | some pB =>
      refine ⟨?_, fun hcon => by simp at hcon⟩
      by_cases hp : pB.length = 12
      · exact ⟨.keyNotFound, by
          simp [FrustumProposal.init, initAssertExpr, pyTruthy_P,
            pyTruthy_Tr_velo_to_cam, reshape34, hp], by simp⟩
      · exact ⟨.cannotReshape, by
          simp [FrustumProposal.init, initAssertExpr, pyTruthy_P,
            pyTruthy_Tr_velo_to_cam, reshape34, hp], by simp⟩

/-- A calibration mapping with `R0_rect` present but `P` absent. -/
def calibsNoP : Calibs :=
  ⟨none, some (List.replicate 12 0), some (List.replicate 9 0)⟩

theorem init_assert_checks_only_r0_witness :
    initAssertExpr calibsNoP = true ∧
    FrustumProposal.init calibsNoP = Except.error CalibError.keyNotFound :=
  ⟨((init_assert_checks_only_r0 calibsNoP).1).mpr rfl,
    ((init_assert_checks_only_r0 calibsNoP).2 rfl (Or.inl rfl)).2 rfl⟩

/-! ## C4 / C5 / C8: the field-of-view filter -/

theorem fov_mask_getElem? (fp : FrustumProposal) (xmin ymin xmax ymax clip : ℚ)
    (pc : List Vec3) (i : ℕ) (p : Vec3) (hp : pc[i]? = some p) :
    (get_lidar_in_image_fov fp pc xmin ymin xmax ymax clip).2.2[i]? =
      some (fovCond fp xmin ymin xmax ymax clip p) := by
  simp [get_lidar_in_image_fov, List.getElem?_map, hp]

/-- An identity engine: identity V2C and R0, identity-like P.  Projection of a
point is then `(x/z, y/z)` (undefined at zero depth). -/
def fpId : FrustumProposal :=
  ⟨pTest, ⟨1, 0, 0, 0, 0, 1, 0, 0, 0, 0, 1, 0⟩,
    inverse_rigid_trans ⟨1, 0, 0, 0, 0, 1, 0, 0, 0, 0, 1, 0⟩,
    ⟨1, 0, 0, 0, 1, 0, 0, 0, 1⟩⟩

/-- C4: the forward-distance test of the FOV filter is strict — a point whose
sensor-frame first coordinate equals the clip distance exactly gets keep-mask
entry `false` and is excluded from the filtered subset, while a point at
distance clip+ε (ε>0) whose projection lies in the box is kept. -/
theorem clip_distance_strict (fp : FrustumProposal) (xmin ymin xmax ymax clip : ℚ)
    (pc : List Vec3) (i j : ℕ) (pI pJ : Vec3) (ε : ℚ)
    (hpI : pc[i]? = some pI) (hpJ : pc[j]? = some pJ) (hε : 0 < ε)
    (hxi : pI.x = clip) (hxj : pJ.x = clip + ε)
    (hbox : inBox xmin ymin xmax ymax (veloToImagePt fp pJ) = true) :
    (get_lidar_in_image_fov fp pc xmin ymin xmax ymax clip).2.2[i]? = some false ∧
    pI ∉ (get_lidar_in_image_fov fp pc xmin ymin xmax ymax clip).1 ∧
    (get_lidar_in_image_fov fp pc xmin ymin xmax ymax clip).2.2[j]? = some true := by
  have hFi : fovCond fp xmin ymin xmax ymax clip pI = false := by
    have hdec : decide (pI.x > clip) = false := by simp [hxi]
    simp [fovCond, hdec]
  have hFj : fovCond fp xmin ymin xmax ymax clip pJ = true := by
    have h2 : clip < pJ.x := by rw [hxj]; linarith
    simp [fovCond, hbox, h2]
  refine ⟨by rw [fov_mask_getElem? fp xmin ymin xmax ymax clip pc i pI hpI, hFi],
    ?_, by rw [fov_mask_getElem? fp xmin ymin xmax ymax clip pc j pJ hpJ, hFj]⟩
  intro hmem
  have hmem' : pI ∈ maskFilter pc
      (pc.map (fovCond fp xmin ymin xmax ymax clip)) := hmem
  have := mem_maskFilter_map hmem'
  rw [hFi] at this
  exact Bool.false_ne_true this

theorem clip_distance_strict_witness :
    ((0:ℚ) < 1 ∧
      inBox 0 0 100 100 (veloToImagePt fpId ⟨3, 0, 1⟩) = true) ∧
    ((get_lidar_in_image_fov fpId [⟨2, 0, 1⟩, ⟨3, 0, 1⟩] 0 0 100 100 2).2.2[0]? =
        some false ∧
      (⟨2, 0, 1⟩ : Vec3) ∉
        (get_lidar_in_image_fov fpId [⟨2, 0, 1⟩, ⟨3, 0, 1⟩] 0 0 100 100 2).1 ∧
      (get_lidar_in_image_fov fpId [⟨2, 0, 1⟩, ⟨3, 0, 1⟩] 0 0 100 100 2).2.2[1]? =
        some true) :=
  ⟨⟨by norm_num,
      by norm_num [inBox, veloToImagePt, rectToImagePt, veloToRectPt,
        refToRectPt, veloToRefPt, applyTr, mulVec33, inv3, det3, fpId, pTest]⟩,
    clip_distance_strict fpId 0 0 100 100 2 [⟨2, 0, 1⟩, ⟨3, 0, 1⟩] 0 1
      ⟨2, 0, 1⟩ ⟨3, 0, 1⟩ 1 rfl rfl (by norm_num) rfl (by norm_num)
      (by norm_num [inBox, veloToImagePt, rectToImagePt, veloToRectPt,
        refToRectPt, veloToRefPt, applyTr, mulVec33, inv3, det3, fpId, pTest])⟩

/-- C5: pixel-box membership is half-open in both the FOV filter and the
per-box frustum masks — a point projecting exactly to xmax or ymax is
excluded, and a point projecting exactly to xmin or ymin (the remaining
bounds, clip test and whole-image mask holding) is included. -/
theorem box_bounds_half_open (fp : FrustumProposal) (xmin ymin xmax ymax clip : ℚ)
    (pc : List Vec3) (i : ℕ) (p : Vec3) (q : ℚ × ℚ)
    (hp : pc[i]? = some p) (hq : veloToImagePt fp p = some q)
    (coords : List (Option (ℚ × ℚ))) (inds : List Bool) (k : ℕ) (b : Bool)
    (hcoord : coords[k]? = some (some q)) (hind : inds[k]? = some b) :
    ((q.1 = xmax ∨ q.2 = ymax) →
      (get_lidar_in_image_fov fp pc xmin ymin xmax ymax clip).2.2[i]? =
          some false ∧
      (box_fov_inds coords inds (xmin, ymin, xmax, ymax))[k]? = some false) ∧
    ((q.1 = xmin ∨ q.2 = ymin) → xmin ≤ q.1 → q.1 < xmax → ymin ≤ q.2 →
      q.2 < ymax → clip < p.x → b = true →
      (get_lidar_in_image_fov fp pc xmin ymin xmax ymax clip).2.2[i]? =
          some true ∧
      (box_fov_inds coords inds (xmin, ymin, xmax, ymax))[k]? = some true) := by
  constructor
  · intro hedge
    have hbox : inBox xmin ymin xmax ymax (some q) = false := by
      rcases hedge with h | h <;> simp [inBox, h]
    constructor
    · rw [fov_mask_getElem? fp xmin ymin xmax ymax clip pc i p hp]
      simp [fovCond, hq, hbox]
    · rw [box_fov_inds, getElem?_zipWith_some hcoord hind]
      simp [hbox]
  · rintro _ h1 h2 h3 h4 hclip hb
    have hbox : inBox xmin ymin xmax ymax (some q) = true := by
      simp [inBox, h1, h2, h3, h4]
    subst hb
    constructor
    · rw [fov_mask_getElem? fp xmin ymin xmax ymax clip pc i p hp]
      simp [fovCond, hq, hbox, hclip]
    · rw [box_fov_inds, getElem?_zipWith_some hcoord hind]
      simp [hbox]

theorem box_bounds_half_open_witness :
    (veloToImagePt fpId ⟨3, 0, 1⟩ = some (3, 0) ∧
      ((3:ℚ), (0:ℚ)).1 = 3 ∧ ((3:ℚ), (0:ℚ)).2 = 0) ∧
    ((get_lidar_in_image_fov fpId [⟨3, 0, 1⟩] 0 0 3 3 2).2.2[0]? = some false ∧
      (box_fov_inds [some (3, 0)] [true] (0, 0, 3, 3))[0]? = some false) ∧
    ((get_lidar_in_image_fov fpId [⟨3, 0, 1⟩] 0 0 100 100 2).2.2[0]? =
        some true ∧
      (box_fov_inds [some (3, 0)] [true] (0, 0, 100, 100))[0]? = some true) :=
  ⟨⟨by norm_num [veloToImagePt, rectToImagePt, veloToRectPt, refToRectPt,
      veloToRefPt, applyTr, mulVec33, inv3, det3, fpId, pTest], rfl, rfl⟩,
    (box_bounds_half_open fpId 0 0 3 3 2 [⟨3, 0, 1⟩] 0 ⟨3, 0, 1⟩ (3, 0) rfl
        (by norm_num [veloToImagePt, rectToImagePt, veloToRectPt, refToRectPt,
          veloToRefPt, applyTr, mulVec33, inv3, det3, fpId, pTest])
        [some (3, 0)] [true] 0 true rfl rfl).1 (Or.inl rfl),
    (box_bounds_half_open fpId 0 0 100 100 2 [⟨3, 0, 1⟩] 0 ⟨3, 0, 1⟩ (3, 0) rfl
        (by norm_num [veloToImagePt, rectToImagePt, veloToRectPt, refToRectPt,
          veloToRefPt, applyTr, mulVec33, inv3, det3, fpId, pTest])
        [some (3, 0)] [true] 0 true rfl rfl).2 (Or.inr rfl) (by norm_num)
      (by norm_num) (by norm_num) (by norm_num) (by norm_num) rfl⟩

/-- C8: the FOV filter (in its `return_more=True` form, the one the frustum
extractor uses) returns three values — the filtered point subset, the full
unfiltered per-point 2D projections, and the boolean keep-mask aligned to the
original input order. -/
theorem fov_filter_returns_triple (fp : FrustumProposal)
    (xmin ymin xmax ymax clip : ℚ) (pc : List Vec3) :
    (get_lidar_in_image_fov fp pc xmin ymin xmax ymax clip).2.1 =
        project_velo_to_image fp pc ∧
    (get_lidar_in_image_fov fp pc xmin ymin xmax ymax clip).2.1.length =
        pc.length ∧
    (get_lidar_in_image_fov fp pc xmin ymin xmax ymax clip).2.2.length =
        pc.length ∧
    (∀ (i : ℕ) (p : Vec3), pc[i]? = some p →
      (get_lidar_in_image_fov fp pc xmin ymin xmax ymax clip).2.1[i]? =
          some (veloToImagePt fp p) ∧
      (get_lidar_in_image_fov fp pc xmin ymin xmax ymax clip).2.2[i]? =
          some (fovCond fp xmin ymin xmax ymax clip p)) ∧
    (get_lidar_in_image_fov fp pc xmin ymin xmax ymax clip).1 =
      maskFilter pc (get_lidar_in_image_fov fp pc xmin ymin xmax ymax clip).2.2 := by
  refine ⟨rfl, ?_, ?_,
    fun i p hp => ⟨?_, fov_mask_getElem? fp xmin ymin xmax ymax clip pc i p hp⟩,
    rfl⟩
  · simp [get_lidar_in_image_fov, project_velo_to_image]
  · simp [get_lidar_in_image_fov]
  · simp [get_lidar_in_image_fov, project_velo_to_image, List.getElem?_map, hp]

theorem fov_filter_returns_triple_witness :
    ([(⟨3, 0, 1⟩ : Vec3)][0]? = some ⟨3, 0, 1⟩) ∧
    (get_lidar_in_image_fov fpId [⟨3, 0, 1⟩] 0 0 100 100 2).2.1[0]? =
        some (veloToImagePt fpId ⟨3, 0, 1⟩) ∧
    (get_lidar_in_image_fov fpId [⟨3, 0, 1⟩] 0 0 100 100 2).2.2[0]? =
        some (fovCond fpId 0 0 100 100 2 ⟨3, 0, 1⟩) :=
  ⟨rfl,
    ((fov_filter_returns_triple fpId 0 0 100 100 2 [⟨3, 0, 1⟩]).2.2.2.1 0
      ⟨3, 0, 1⟩ rfl).1,
    ((fov_filter_returns_triple fpId 0 0 100 100 2 [⟨3, 0, 1⟩]).2.2.2.1 0
      ⟨3, 0, 1⟩ rfl).2⟩

/-! ## C2 / C9: structure of the extractor's output -/

/-- C2: in every emitted pair, the sensor-frame subset has the length of the
rectified-frame subset, and its row k is the rectified→sensor transform of the
rectified row k's spatial coordinates with the auxiliary scalar unchanged. -/
theorem frustum_pairing_consistent (fp : FrustumProposal) (img_shape : ℕ × ℕ × ℕ)
    (boxes2d : List Box2D) (pc_velo : List Vec4) (i k : ℕ) (rows : List Vec4)
    (q : Vec4)
    (hrows : (get_frustum_proposal fp img_shape boxes2d pc_velo).1[i]? = some rows)
    (hq : rows[k]? = some q) :
    ∃ vrows,
      (get_frustum_proposal fp img_shape boxes2d pc_velo).2[i]? = some vrows ∧
      vrows.length = rows.length ∧
      vrows[k]? = some (rectRowToVelo fp q) ∧
      (rectRowToVelo fp q).spatial = rectToVeloPt fp q.spatial ∧
      (rectRowToVelo fp q).w = q.w := by
  have h2 : (get_frustum_proposal fp img_shape boxes2d pc_velo).2 =
      (get_frustum_proposal fp img_shape boxes2d pc_velo).1.map
        (fun rows2 => rows2.map (rectRowToVelo fp)) := rfl
  refine ⟨rows.map (rectRowToVelo fp), ?_, by simp, ?_, rfl, rfl⟩
  · rw [h2, List.getElem?_map, hrows]
    rfl
  · rw [List.getElem?_map, hq]
    rfl

theorem frustum_pairing_consistent_witness :
    (get_frustum_proposal fpId (100, 100, 3) [(0, 0, 50, 50)]
        [⟨3, 0, 1, 7⟩]).1[0]? = some [⟨3, 0, 1, 7⟩] ∧
    ∃ vrows,
      (get_frustum_proposal fpId (100, 100, 3) [(0, 0, 50, 50)]
          [⟨3, 0, 1, 7⟩]).2[0]? = some vrows ∧
      vrows.length = ([(⟨3, 0, 1, 7⟩ : Vec4)]).length ∧
      vrows[0]? = some (rectRowToVelo fpId ⟨3, 0, 1, 7⟩) ∧
      (rectRowToVelo fpId ⟨3, 0, 1, 7⟩).spatial =
        rectToVeloPt fpId (⟨3, 0, 1, 7⟩ : Vec4).spatial ∧
      (rectRowToVelo fpId ⟨3, 0, 1, 7⟩).w = (⟨3, 0, 1, 7⟩ : Vec4).w := by
  have hrows : (get_frustum_proposal fpId (100, 100, 3) [(0, 0, 50, 50)]
      [⟨3, 0, 1, 7⟩]).1[0]? = some [⟨3, 0, 1, 7⟩] := by
    norm_num [get_frustum_proposal, wholeImageFov, get_lidar_in_image_fov,
      project_velo_to_image, fovCond, veloToImagePt, rectToImagePt,
      veloToRectPt, refToRectPt, veloToRefPt, applyTr, mulVec33, inv3, det3,
      inBox, maskFilter, box_fov_inds, veloRowToRect, Vec4.spatial, fpId, pTest]
  exact ⟨hrows, frustum_pairing_consistent fpId (100, 100, 3) [(0, 0, 50, 50)]
    [⟨3, 0, 1, 7⟩] 0 0 [⟨3, 0, 1, 7⟩] ⟨3, 0, 1, 7⟩ hrows rfl⟩

/-- C9: the extraction is deterministic and order-preserving — output entry i
is the masked gather for input box i (output order mirrors box order), and
each emitted subset is a sublist of the precomputed point rows, i.e. kept
points appear in the relative order of their original point-cloud indices. -/
theorem frustum_order_preservation (fp : FrustumProposal) (img_shape : ℕ × ℕ × ℕ)
    (boxes2d : List Box2D) (pc_velo : List Vec4) :
    (get_frustum_proposal fp img_shape boxes2d pc_velo).1.length =
        boxes2d.length ∧
    (get_frustum_proposal fp img_shape boxes2d pc_velo).2.length =
        boxes2d.length ∧
    (∀ (i : ℕ) (box : Box2D), boxes2d[i]? = some box →
      (get_frustum_proposal fp img_shape boxes2d pc_velo).1[i]? =
        some (maskFilter (pc_velo.map (veloRowToRect fp))
          (box_fov_inds (wholeImageFov fp img_shape pc_velo).2.1
            (wholeImageFov fp img_shape pc_velo).2.2 box))) ∧
    (∀ rows ∈ (get_frustum_proposal fp img_shape boxes2d pc_velo).1,
      List.Sublist rows (pc_velo.map (veloRowToRect fp))) ∧
    (∀ vrows ∈ (get_frustum_proposal fp img_shape boxes2d pc_velo).2,
      List.Sublist vrows
        ((pc_velo.map (veloRowToRect fp)).map (rectRowToVelo fp))) := by
  have h1 : (get_frustum_proposal fp img_shape boxes2d pc_velo).1 =
      boxes2d.map (fun box => maskFilter (pc_velo.map (veloRowToRect fp))
        (box_fov_inds (wholeImageFov fp img_shape pc_velo).2.1
          (wholeImageFov fp img_shape pc_velo).2.2 box)) := rfl
  have h2 : (get_frustum_proposal fp img_shape boxes2d pc_velo).2 =
      (get_frustum_proposal fp img_shape boxes2d pc_velo).1.map
        (fun rows2 => rows2.map (rectRowToVelo fp)) := rfl
  refine ⟨by rw [h1]; simp, by rw [h2, h1]; simp, ?_, ?_, ?_⟩
  · intro i box hbox
    rw [h1, List.getElem?_map, hbox]
    rfl
  · intro rows hrows
    rw [h1] at hrows
    obtain ⟨box, _, rfl⟩ := List.mem_map.mp hrows
    exact maskFilter_sublist _ _
  · intro vrows hvrows
    rw [h2, h1] at hvrows
    obtain ⟨rows, hrows, rfl⟩ := List.mem_map.mp hvrows
    obtain ⟨box, _, rfl⟩ := List.mem_map.mp hrows
    exact List.Sublist.map _ (maskFilter_sublist _ _)

theorem frustum_order_preservation_witness :
    (get_frustum_proposal fpId (100, 100, 3) [(0, 0, 50, 50)]
        [⟨3, 0, 1, 7⟩]).1[0]? =
      some (maskFilter ([(⟨3, 0, 1, 7⟩ : Vec4)].map (veloRowToRect fpId))
        (box_fov_inds (wholeImageFov fpId (100, 100, 3) [⟨3, 0, 1, 7⟩]).2.1
          (wholeImageFov fpId (100, 100, 3) [⟨3, 0, 1, 7⟩]).2.2
          (0, 0, 50, 50))) :=
  (frustum_order_preservation fpId (100, 100, 3) [(0, 0, 50, 50)]
    [⟨3, 0, 1, 7⟩]).2.2.1 0 (0, 0, 50, 50) rfl

/-! ## C7: the spec's concrete scenario -/

theorem scenario_eval :
    get_frustum_proposal fpId (100, 100, 3) [(0, 0, 50, 50)] [⟨5, 0, 0, 1⟩] =
      ([[]], [[]]) := by
  norm_num [get_frustum_proposal, wholeImageFov, get_lidar_in_image_fov,
    project_velo_to_image, fovCond, veloToImagePt, rectToImagePt,
    veloToRectPt, refToRectPt, veloToRefPt, applyTr, mulVec33, inv3, det3,
    inBox, maskFilter, box_fov_inds, veloRowToRect, Vec4.spatial, fpId, pTest]

/-- C7 counterexample: with P = [[1,0,0,0],[0,1,0,0],[0,0,1,0]], V2C and R0
the identity, point cloud [[5,0,0,1]], image shape (100,100,3) and box
[0,0,50,50], the extraction does NOT return the claimed singleton subsets:
the point has rectified-frame depth 0, its perspective divide is non-finite,
every pixel-bound comparison on it fails, and it is filtered out. -/
theorem scenario_counterexample :
    get_frustum_proposal fpId (100, 100, 3) [(0, 0, 50, 50)] [⟨5, 0, 0, 1⟩] ≠
      ([[⟨5, 0, 0, 1⟩]], [[⟨5, 0, 0, 1⟩]]) := by
  rw [scenario_eval]
  simp

/-- C7 amended: in the spec's scenario the point's forward distance does pass
the clip test (5 > 2), but its rectified-frame depth is 0, so its projection
is non-finite (inf/nan in the source) and fails the field-of-view test; both
output subsets for the box are empty. -/
theorem scenario_amended :
    get_frustum_proposal fpId (100, 100, 3) [(0, 0, 50, 50)] [⟨5, 0, 0, 1⟩] =
      ([[]], [[]]) :=
  scenario_eval
